import Mathlib

/-!
Verification of the LimitlessTCG MCP server against its specification.

The development shallowly embeds the authenticated Request Client
(the function limitlessRequest of the source, with its dual
authentication modes and one-shot fallback retry), the startup
credential resolution (getApiKey), and the tool dispatch handlers,
and proves the behavioral properties stated in the specification.
Effects are made explicit: the HTTP exchange is a parameter
(a Responder function from requests to outcomes), fallible code
returns Except, and the client also returns the list of outbound
requests it issued, so that request counts and shapes are observable.
-/

/-- A JavaScript value as it can appear in a query-parameter record:
undefined, null, a string, or a number (integral in this program). -/
inductive JSValue where
  | undef
  | null
  | str (s : String)
  | num (n : Int)
deriving DecidableEq

/-- JavaScript String(value) conversion for the values above. -/
def jsToString : JSValue → String
  | .undef => "undefined"
  | .null => "null"
  | .str s => s
  | .num n => toString n

/-- JavaScript truthiness for the values above: undefined and null are
falsy, a string is truthy iff nonempty, a number is truthy iff nonzero. -/
def truthy : JSValue → Bool
  | .undef => false
  | .null => false
  | .str s => !s.isEmpty
  | .num n => n != 0

/-- A JSON document, the payload type of upstream responses. -/
inductive Json where
  | null
  | bool (b : Bool)
  | num (n : Int)
  | str (s : String)
  | arr (elems : List Json)
  | obj (fields : List (String × Json))
deriving Inhabited

/-- An outbound HTTP request as the client assembles it: the effective
path under the API base, the URL search parameters in append order,
and the request headers. -/
structure Request where
  path : String
  query : List (String × String)
  headers : List (String × String)
deriving DecidableEq

/-- An HTTP response as seen through fetch: the ok flag, status code,
status text, and the outcome of response.json() on the body. -/
structure HttpResponse where
  ok : Bool
  status : Nat
  statusText : String
  json : Except String Json

/-- The outcome of one fetch call: either the promise rejects (a
transport or network failure) or a response is delivered. -/
inductive FetchResult where
  | networkFailure (display : String)
  | success (r : HttpResponse)

/-- The upstream as the client observes it: a function from the
assembled request to the fetch outcome. -/
abbrev Responder := Request → FetchResult

/-- An error thrown inside the try block of limitlessRequest: a
non-success HTTP status (carrying the status code and status text of
the response), a network failure, or a JSON-body parse failure. -/
inductive RequestError where
  | httpError (status : Nat) (statusText : String)
  | networkError (display : String)
  | jsonParseError (display : String)
deriving DecidableEq

/-- The string form of a thrown error as interpolated by the handlers.
A thrown new Error displays as the text Error: followed by its
message; for network and parse failures the display string carries
the full form already. -/
def jsErrorString : RequestError → String
  | .httpError status statusText =>
      "Error: API request failed: " ++ toString status ++ " " ++ statusText
  | .networkError display => display
  | .jsonParseError display => display

/-- Source line: endpoint.startsWith a slash, then endpoint.substring
of 1, else endpoint unchanged. Strips exactly one leading slash. -/
def cleanEndpoint (endpoint : String) : String :=
  if endpoint.data.head? = some '/' then String.mk (endpoint.data.drop 1)
  else endpoint

/-- The query-parameter loop of limitlessRequest: for each entry of
params, if the value is not undefined, append the pair of the name and
String of the value to the URL search parameters. -/
def appendParams (params : List (String × JSValue)) : List (String × String) :=
  params.filterMap fun p =>
    match p.2 with
    | .undef => none
    | v => some (p.1, jsToString v)

/-- The request limitlessRequest assembles before fetching: the
cleaned endpoint path, the retained query parameters, and either the
X-Access-Key header (header mode) or the credential appended to the
URL as the query parameter named key (query-parameter mode). -/
def buildRequest (validApiKey : String) (endpoint : String)
    (params : List (String × JSValue)) (useHeaderAuth : Bool) : Request :=
  let cleanEp := cleanEndpoint endpoint
  let q := appendParams params
  if useHeaderAuth then
    { path := cleanEp, query := q, headers := [("X-Access-Key", validApiKey)] }
  else
    { path := cleanEp, query := q ++ [("key", validApiKey)], headers := [] }

/-- One pass through the try block of limitlessRequest: fetch the
request; a rejected fetch is a network error; a delivered response
with the ok flag unset throws the Upstream HTTP Error carrying the
status code and status text; otherwise the body is parsed as JSON and
returned (a parse failure also throws). -/
def attempt (responder : Responder) (req : Request) : Except RequestError Json :=
  match responder req with
  | .networkFailure display => .error (.networkError display)
  | .success r =>
    if !r.ok then .error (.httpError r.status r.statusText)
    else
      match r.json with
      | .error display => .error (.jsonParseError display)
      | .ok data => .ok data

/-- The function limitlessRequest of the source. The catch block
retries once in header mode when the failing attempt was in
query-parameter mode, and rethrows otherwise; the single recursive
call (with useHeaderAuth set to true, which cannot recurse again) is
inlined here. The first component is the list of outbound requests
issued, in order; the second is the returned JSON or the propagated
error. -/
def limitlessRequest (responder : Responder) (validApiKey : String)
    (endpoint : String) (params : List (String × JSValue))
    (useHeaderAuth : Bool) : List Request × Except RequestError Json :=
  let req := buildRequest validApiKey endpoint params useHeaderAuth
  match attempt responder req with
  | .ok data => ([req], .ok data)
  | .error e =>
    match useHeaderAuth with
    | true => ([req], .error e)
    | false =>
      let retryReq := buildRequest validApiKey endpoint params true
      match attempt responder retryReq with
      | .ok data => ([req, retryReq], .ok data)
      | .error e2 => ([req, retryReq], .error e2)

mutual

/-- JSON.stringify as used by the handlers to serialize the payload
(indentation abstracted away; no claim inspects the serialized
success text). -/
def jsonStringify : Json → String
  | .null => "null"
  | .bool b => cond b "true" "false"
  | .num n => toString n
  | .str s => "\"" ++ s ++ "\""
  | .arr elems => "[" ++ stringifyElems elems ++ "]"
  | .obj fields => "\x7b" ++ stringifyFields fields ++ "\x7d"

/-- Serialize the elements of a JSON array, comma separated. -/
def stringifyElems : List Json → String
  | [] => ""
  | [j] => jsonStringify j
  | j :: rest => jsonStringify j ++ "," ++ stringifyElems rest

/-- Serialize the fields of a JSON object, comma separated. -/
def stringifyFields : List (String × Json) → String
  | [] => ""
  | [f] => "\"" ++ f.1 ++ "\":" ++ jsonStringify f.2
  | f :: rest => "\"" ++ f.1 ++ "\":" ++ jsonStringify f.2 ++ "," ++ stringifyFields rest

end

/-- The expression tournament.name with id as fallback: the name field
of the payload when it is an object with a truthy string name,
otherwise the given identifier. -/
def jsonNameOr (j : Json) (dflt : String) : String :=
  match j with
  | .obj fields =>
    match fields.lookup "name" with
    | some (.str s) => if s.isEmpty then dflt else s
    | _ => dflt
  | _ => dflt

/-- One text block of a tool response envelope. -/
structure ContentItem where
  type : String
  text : String
deriving DecidableEq

/-- The response envelope a tool handler returns: the error flag and
the content list. A handler in the embedding is a total function into
this type, so no failure escapes the invocation boundary. -/
structure ToolResult where
  isError : Bool
  content : List ContentItem
deriving DecidableEq

/-- The queryParams record the get_tournaments handler builds: each of
the five optional parameters is added under its name only when its
value is truthy (the if guards of the source), in source order. -/
def getTournamentsQueryParams (game format organizerId limit page : JSValue) :
    List (String × JSValue) :=
  (if truthy game then [("game", game)] else [])
  ++ (if truthy format then [("format", format)] else [])
  ++ (if truthy organizerId then [("organizerId", organizerId)] else [])
  ++ (if truthy limit then [("limit", limit)] else [])
  ++ (if truthy page then [("page", page)] else [])

/-- The human-readable title the get_tournaments handler builds: the
base text with one segment appended per truthy parameter. -/
def getTournamentsTitle (game format organizerId limit page : JSValue) : String :=
  let title := "Limitless Tournaments"
  let title := if truthy game then title ++ " - " ++ jsToString game else title
  let title := if truthy format then title ++ " (" ++ jsToString format ++ " format)" else title
  let title := if truthy organizerId then title ++ " by organizer " ++ jsToString organizerId else title
  let title := if truthy limit then title ++ " (limited to " ++ jsToString limit ++ ")" else title
  let title := if truthy page then title ++ " - Page " ++ jsToString page else title
  title

/-- The single call into the Request Client that the get_tournaments
handler makes: endpoint tournaments, the filtered query parameters,
query-parameter mode. -/
def getTournamentsCall (responder : Responder) (validApiKey : String)
    (game format organizerId limit page : JSValue) :
    List Request × Except RequestError Json :=
  limitlessRequest responder validApiKey "tournaments"
    (getTournamentsQueryParams game format organizerId limit page) false

/-- The get_tournaments tool handler: build the query parameters, call
the Request Client once, and wrap the outcome; any raised failure is
caught and becomes an envelope with the error flag set whose text
embeds the failure. -/
def getTournamentsHandler (responder : Responder) (validApiKey : String)
    (game format organizerId limit page : JSValue) : ToolResult :=
  match (getTournamentsCall responder validApiKey game format organizerId limit page).2 with
  | .ok tournaments =>
      { isError := false,
        content := [⟨"text",
          "# " ++ getTournamentsTitle game format organizerId limit page
            ++ "\n\n" ++ jsonStringify tournaments⟩] }
  | .error e =>
      { isError := true,
        content := [⟨"text", "Error fetching tournaments: " ++ jsErrorString e⟩] }

/-- The get_tournament_details tool handler. -/
def getTournamentDetailsHandler (responder : Responder) (validApiKey : String)
    (id : String) : ToolResult :=
  match (limitlessRequest responder validApiKey ("tournaments/" ++ id ++ "/details") [] false).2 with
  | .ok tournament =>
      { isError := false,
        content := [⟨"text",
          "# Tournament: " ++ jsonNameOr tournament id ++ "\n\n" ++ jsonStringify tournament⟩] }
  | .error e =>
      { isError := true,
        content := [⟨"text", "Error fetching tournament details: " ++ jsErrorString e⟩] }

/-- The get_tournament_standings tool handler. -/
def getTournamentStandingsHandler (responder : Responder) (validApiKey : String)
    (id : String) : ToolResult :=
  match (limitlessRequest responder validApiKey ("tournaments/" ++ id ++ "/standings") [] false).2 with
  | .ok standings =>
      { isError := false,
        content := [⟨"text", "# Tournament Standings\n\n" ++ jsonStringify standings⟩] }
  | .error e =>
      { isError := true,
        content := [⟨"text", "Error fetching tournament standings: " ++ jsErrorString e⟩] }

/-- The get_tournament_pairings tool handler. -/
def getTournamentPairingsHandler (responder : Responder) (validApiKey : String)
    (id : String) : ToolResult :=
  match (limitlessRequest responder validApiKey ("tournaments/" ++ id ++ "/pairings") [] false).2 with
  | .ok pairings =>
      { isError := false,
        content := [⟨"text", "# Tournament Pairings\n\n" ++ jsonStringify pairings⟩] }
  | .error e =>
      { isError := true,
        content := [⟨"text", "Error fetching tournament pairings: " ++ jsErrorString e⟩] }

/-- Truthiness of the environment variable read: an unset variable and
an empty string are both falsy in the if guard of getApiKey. -/
def envTruthy : Option String → Bool
  | none => false
  | some v => !v.isEmpty

/-- The JavaScript method startsWith on strings, as character-list
inclusion at the front. -/
def jsStartsWith (s pre : String) : Bool :=
  pre.data.isPrefixOf s.data

/-- The function getApiKey of the source: return the environment
variable LIMITLESS_API_KEY when truthy; else find the first argv
entry starting with the text api-key= and return the piece after the
first equals sign (the split on equals, element one, which exists for
every matching entry); else null. -/
def getApiKey (env : Option String) (argv : List String) : Option String :=
  if envTruthy env then env
  else
    match argv.find? (fun arg => jsStartsWith arg "api-key=") with
    | some arg => some ((arg.splitOn "=").getD 1 "")
    | none => none

/-- The diagnostic emitted when no API key is configured. -/
def noApiKeyDiagnostic : String :=
  "ERROR: No API key provided. Please set LIMITLESS_API_KEY environment variable or provide api-key=<API_KEY_HERE> argument."

/-- The state of the process after the startup credential check:
either it exited fatally with a diagnostic, or it runs with the
resolved credential. -/
inductive Startup where
  | fatal (diagnostic : String)
  | running (validApiKey : String)
deriving DecidableEq

/-- The startup check of the strict variants: resolve the key; when
the result is falsy (null or the empty string) emit the diagnostic and
exit; otherwise continue with the non-empty credential. -/
def startup (env : Option String) (argv : List String) : Startup :=
  match getApiKey env argv with
  | none => .fatal noApiKeyDiagnostic
  | some k => if k.isEmpty then .fatal noApiKeyDiagnostic else .running k

/-- Helper: every name appearing in the retained query parameters
already appears among the names of the given parameter record. -/
theorem appendParams_name_mem {n : String} {params : List (String × JSValue)}
    (h : n ∈ (appendParams params).map Prod.fst) : n ∈ params.map Prod.fst := by
  rcases List.mem_map.mp h with ⟨q, hq, hfst⟩
  rcases List.mem_filterMap.mp hq with ⟨⟨pn, pv⟩, hp, hf⟩
  have hpn : pn = n := by
    cases pv <;> simp [appendParams] at hf
    all_goals (subst hf; simpa using hfst)
  exact List.mem_map.mpr ⟨(pn, pv), hp, hpn⟩

/-- C5: for every endpoint path with a leading slash the effective
request path is the path with exactly one leading slash stripped;
a path with no leading slash is used unchanged. -/
theorem cleanEndpoint_strips_one_leading_slash :
    (∀ rest : String, cleanEndpoint ("/" ++ rest) = rest)
    ∧ (∀ p : String, p.data.head? ≠ some '/' → cleanEndpoint p = p) := by
  constructor
  · intro rest
    unfold cleanEndpoint
    rw [String.data_append]
    simp
  · intro p h
    unfold cleanEndpoint
    simp [h]

/-- Witness for C5 at concrete paths. -/
theorem cleanEndpoint_strips_one_leading_slash_witness :
    cleanEndpoint ("/" ++ "tournaments") = "tournaments"
    ∧ cleanEndpoint "tournaments" = "tournaments" :=
  ⟨cleanEndpoint_strips_one_leading_slash.1 "tournaments",
   cleanEndpoint_strips_one_leading_slash.2 "tournaments" (by decide)⟩

/-- C3: in query-parameter mode the credential is appended to the URL
as the query parameter named key and no X-Access-Key header is sent;
in header mode the credential is the value of the X-Access-Key header
and is not appended to the URL; the retained query parameters are
appended identically (as the same initial list) in both modes, and
the path is the same in both modes. -/
theorem buildRequest_auth_modes (validApiKey endpoint : String)
    (params : List (String × JSValue)) :
    (buildRequest validApiKey endpoint params false).query
      = appendParams params ++ [("key", validApiKey)]
    ∧ (buildRequest validApiKey endpoint params false).headers = []
    ∧ (buildRequest validApiKey endpoint params true).headers
      = [("X-Access-Key", validApiKey)]
    ∧ (buildRequest validApiKey endpoint params true).query = appendParams params
    ∧ (buildRequest validApiKey endpoint params true).path
      = (buildRequest validApiKey endpoint params false).path :=
  ⟨rfl, rfl, rfl, rfl, rfl⟩

/-- C4: parameters whose value is undefined are dropped by the query
loop; every other entry is retained as its name paired with the
stringified value, and in both authentication modes such an entry
appears in the final request URL query; a name all of whose entries
are undefined appears nowhere in the retained query parameters. -/
theorem appendParams_omits_undefined (validApiKey endpoint : String)
    (params : List (String × JSValue)) :
    appendParams params
      = (params.filter fun p =>
          match p.2 with | .undef => false | _ => true).map
            (fun p => (p.1, jsToString p.2))
    ∧ (∀ (n : String) (v : JSValue) (mode : Bool), (n, v) ∈ params →
        v ≠ JSValue.undef →
        (n, jsToString v) ∈ (buildRequest validApiKey endpoint params mode).query)
    ∧ (∀ n : String, (∀ v, (n, v) ∈ params → v = JSValue.undef) →
        ∀ s, (n, s) ∉ appendParams params) := by
  refine ⟨?_, ?_, ?_⟩
  · induction params with
    | nil => rfl
    | cons p rest ih =>
      rcases p with ⟨n, v⟩
      cases v <;> simp [appendParams, List.filter_cons] at * <;> exact ih
  · intro n v mode hmem hne
    have hq : (n, jsToString v) ∈ appendParams params := by
      apply List.mem_filterMap.mpr
      refine ⟨(n, v), hmem, ?_⟩
      cases v <;> simp_all [appendParams]
    cases mode
    · exact List.mem_append_left _ hq
    · exact hq
  · intro n hall s hmem
    rcases List.mem_filterMap.mp hmem with ⟨⟨pn, pv⟩, hp, hf⟩
    cases pv <;> simp [appendParams] at hf
    all_goals exact absurd (hall _ (hf.1 ▸ hp)) (by simp)

/-- Witness for C4 at a concrete parameter record. -/
theorem appendParams_omits_undefined_witness :
    appendParams [("a", JSValue.str "x"), ("b", JSValue.undef)]
      = ([("a", JSValue.str "x"), ("b", JSValue.undef)].filter fun p =>
          match p.2 with | .undef => false | _ => true).map
            (fun p => (p.1, jsToString p.2))
    ∧ ("a", jsToString (JSValue.str "x"))
        ∈ (buildRequest "k" "tournaments"
            [("a", JSValue.str "x"), ("b", JSValue.undef)] false).query
    ∧ ∀ s, ("b", s) ∉ appendParams [("a", JSValue.str "x"), ("b", JSValue.undef)] :=
  ⟨(appendParams_omits_undefined "k" "tournaments" _).1,
   (appendParams_omits_undefined "k" "tournaments" _).2.1 "a" (JSValue.str "x") false
     (by simp) (by simp),
   (appendParams_omits_undefined "k" "tournaments" _).2.2 "b"
     (by intro v h; simp at h; exact h)⟩

/-- C1: if the attempt fails in query-parameter mode, the client
retries the identical request (same endpoint and parameters) exactly
once in header mode, and the returned outcome is exactly that of the
identical header-mode call; if an attempt fails while already in
header mode, the failure propagates with no further request. -/
theorem limitlessRequest_retries_once_in_header_mode (responder : Responder)
    (validApiKey endpoint : String) (params : List (String × JSValue))
    (e : RequestError)
    (hq : attempt responder (buildRequest validApiKey endpoint params false)
      = .error e) :
    (limitlessRequest responder validApiKey endpoint params false).1
      = [buildRequest validApiKey endpoint params false,
         buildRequest validApiKey endpoint params true]
    ∧ (limitlessRequest responder validApiKey endpoint params false).2
      = (limitlessRequest responder validApiKey endpoint params true).2
    ∧ (∀ e2, attempt responder (buildRequest validApiKey endpoint params true)
        = .error e2 →
        limitlessRequest responder validApiKey endpoint params true
          = ([buildRequest validApiKey endpoint params true], .error e2)) := by
  refine ⟨?_, ?_, ?_⟩
  · cases h2 : attempt responder (buildRequest validApiKey endpoint params true) <;>
      simp [limitlessRequest, hq, h2]
  · cases h2 : attempt responder (buildRequest validApiKey endpoint params true) <;>
      simp [limitlessRequest, hq, h2]
  · intro e2 h2
    simp [limitlessRequest, h2]

/-- Witness for C1 with an upstream that always fails. -/
theorem limitlessRequest_retries_once_in_header_mode_witness :
    (limitlessRequest (fun _ => FetchResult.networkFailure "boom") "k"
      "tournaments" [] false).1
      = [buildRequest "k" "tournaments" [] false,
         buildRequest "k" "tournaments" [] true]
    ∧ (limitlessRequest (fun _ => FetchResult.networkFailure "boom") "k"
        "tournaments" [] false).2
      = (limitlessRequest (fun _ => FetchResult.networkFailure "boom") "k"
          "tournaments" [] true).2 :=
  ⟨(limitlessRequest_retries_once_in_header_mode
      (fun _ => FetchResult.networkFailure "boom") "k" "tournaments" []
      (.networkError "boom") rfl).1,
   (limitlessRequest_retries_once_in_header_mode
      (fun _ => FetchResult.networkFailure "boom") "k" "tournaments" []
      (.networkError "boom") rfl).2.1⟩

/-- C2: every invocation issues at most two outbound requests; when
the query-parameter-mode attempt fails and the header-mode attempt
succeeds, exactly the two requests are observed (the first carrying
no X-Access-Key header, the second carrying X-Access-Key and, when the
caller passed no parameter named key, no key query parameter) and the
successful result is returned; when an invocation in header mode
fails, the failure propagates after exactly one request. -/
theorem limitlessRequest_at_most_two_requests (responder : Responder)
    (validApiKey endpoint : String) (params : List (String × JSValue)) :
    (∀ mode : Bool,
      (limitlessRequest responder validApiKey endpoint params mode).1.length ≤ 2)
    ∧ (∀ e data,
        attempt responder (buildRequest validApiKey endpoint params false)
          = .error e →
        attempt responder (buildRequest validApiKey endpoint params true)
          = .ok data →
        limitlessRequest responder validApiKey endpoint params false
          = ([buildRequest validApiKey endpoint params false,
              buildRequest validApiKey endpoint params true], .ok data)
        ∧ "X-Access-Key"
            ∉ (buildRequest validApiKey endpoint params false).headers.map Prod.fst
        ∧ (buildRequest validApiKey endpoint params true).headers
            = [("X-Access-Key", validApiKey)]
        ∧ ("key" ∉ params.map Prod.fst →
            "key" ∉ (buildRequest validApiKey endpoint params true).query.map Prod.fst))
    ∧ (∀ e, attempt responder (buildRequest validApiKey endpoint params true)
          = .error e →
        limitlessRequest responder validApiKey endpoint params true
          = ([buildRequest validApiKey endpoint params true], .error e)) := by
  refine ⟨?_, ?_, ?_⟩
  · intro mode
    cases mode <;>
      cases h1 : attempt responder (buildRequest validApiKey endpoint params false) <;>
      cases h2 : attempt responder (buildRequest validApiKey endpoint params true) <;>
      simp [limitlessRequest, h1, h2]
  · intro e data hq hh
    refine ⟨by simp [limitlessRequest, hq, hh], by simp [buildRequest], rfl, ?_⟩
    intro hk hmem
    exact hk (appendParams_name_mem (by simpa [buildRequest] using hmem))
  · intro e h2
    simp [limitlessRequest, h2]

/-- Witness for C2: an upstream rejecting the query-parameter request
and accepting the header request. -/
theorem limitlessRequest_at_most_two_requests_witness :
    limitlessRequest
        (fun req => if req.headers = [] then FetchResult.networkFailure "denied"
          else FetchResult.success ⟨true, 200, "OK", .ok .null⟩)
        "k" "tournaments" [] false
      = ([buildRequest "k" "tournaments" [] false,
          buildRequest "k" "tournaments" [] true], .ok .null)
    ∧ "key" ∉ (buildRequest "k" "tournaments" [] true).query.map Prod.fst :=
  ⟨((limitlessRequest_at_most_two_requests
      (fun req => if req.headers = [] then FetchResult.networkFailure "denied"
        else FetchResult.success ⟨true, 200, "OK", .ok .null⟩)
      "k" "tournaments" []).2.1 (.networkError "denied") .null rfl rfl).1,
   ((limitlessRequest_at_most_two_requests
      (fun req => if req.headers = [] then FetchResult.networkFailure "denied"
        else FetchResult.success ⟨true, 200, "OK", .ok .null⟩)
      "k" "tournaments" []).2.1 (.networkError "denied") .null rfl rfl).2.2.2
     (by simp)⟩

/-- C6: a delivered response whose status is not success makes the
attempt fail with the Upstream HTTP Error carrying the status code
and the status text of the response; a delivered response with a
successful status has its body parsed as JSON and returned. -/
theorem attempt_http_status_handling (responder : Responder) (req : Request)
    (r : HttpResponse) (h : responder req = .success r) :
    (r.ok = false →
      attempt responder req = .error (.httpError r.status r.statusText))
    ∧ (r.ok = true → ∀ data, r.json = .ok data →
      attempt responder req = .ok data) := by
  constructor
  · intro h1
    simp [attempt, h, h1]
  · intro h1 data hj
    simp [attempt, h, h1, hj]

/-- Witness for C6: a 404 response and a 200 response with a payload. -/
theorem attempt_http_status_handling_witness :
    attempt (fun _ => FetchResult.success ⟨false, 404, "Not Found", .ok .null⟩)
        ⟨"tournaments", [], []⟩
      = .error (.httpError 404 "Not Found")
    ∧ attempt (fun _ => FetchResult.success ⟨true, 200, "OK", .ok (.str "data")⟩)
        ⟨"tournaments", [], []⟩
      = .ok (.str "data") :=
  ⟨(attempt_http_status_handling
      (fun _ => FetchResult.success ⟨false, 404, "Not Found", .ok .null⟩)
      ⟨"tournaments", [], []⟩ ⟨false, 404, "Not Found", .ok .null⟩ rfl).1 rfl,
   (attempt_http_status_handling
      (fun _ => FetchResult.success ⟨true, 200, "OK", .ok (.str "data")⟩)
      ⟨"tournaments", [], []⟩ ⟨true, 200, "OK", .ok (.str "data")⟩ rfl).2 rfl
     (.str "data") rfl⟩

/-- Helper: membership in a conditional singleton gives the condition
and the equality. -/
theorem mem_ite_singleton {α : Type} {a x : α} {c : Prop} [Decidable c]
    (h : a ∈ (if c then [x] else [])) : c ∧ a = x := by
  by_cases hc : c <;> simp [hc] at h
  exact ⟨hc, h⟩

/-- Helper: a name appearing in the get_tournaments query parameters
is one of the five parameter names, and only when that parameter was
truthy. -/
theorem getTournamentsQueryParams_names {n : String}
    {game format organizerId limit page : JSValue}
    (h : n ∈ (getTournamentsQueryParams game format organizerId limit page).map
      Prod.fst) :
    (n = "game" ∧ truthy game = true) ∨ (n = "format" ∧ truthy format = true)
    ∨ (n = "organizerId" ∧ truthy organizerId = true)
    ∨ (n = "limit" ∧ truthy limit = true)
    ∨ (n = "page" ∧ truthy page = true) := by
  rcases List.mem_map.mp h with ⟨q, hq, hfst⟩
  unfold getTournamentsQueryParams at hq
  simp only [List.mem_append] at hq
  rcases hq with ((((hq | hq) | hq) | hq) | hq) <;>
    rcases mem_ite_singleton hq with ⟨hc, rfl⟩ <;> simp at hfst
  · exact Or.inl ⟨hfst.symm, hc⟩
  · exact Or.inr (Or.inl ⟨hfst.symm, hc⟩)
  · exact Or.inr (Or.inr (Or.inl ⟨hfst.symm, hc⟩))
  · exact Or.inr (Or.inr (Or.inr (Or.inl ⟨hfst.symm, hc⟩)))
  · exact Or.inr (Or.inr (Or.inr (Or.inr ⟨hfst.symm, hc⟩)))

/-- C7: for each of the four tool handlers, a failure propagated by
the Request Client is caught and converted into an envelope with the
error flag set whose single text block embeds the failure; the
handlers are total functions into the envelope type, so no failure
escapes the invocation boundary. -/
theorem tool_handlers_catch_failures (responder : Responder)
    (validApiKey : String) (game format organizerId limit page : JSValue)
    (id : String) (e : RequestError) :
    ((getTournamentsCall responder validApiKey game format organizerId limit page).2
        = .error e →
      getTournamentsHandler responder validApiKey game format organizerId limit page
        = ⟨true, [⟨"text", "Error fetching tournaments: " ++ jsErrorString e⟩]⟩)
    ∧ ((limitlessRequest responder validApiKey
          ("tournaments/" ++ id ++ "/details") [] false).2 = .error e →
      getTournamentDetailsHandler responder validApiKey id
        = ⟨true, [⟨"text", "Error fetching tournament details: " ++ jsErrorString e⟩]⟩)
    ∧ ((limitlessRequest responder validApiKey
          ("tournaments/" ++ id ++ "/standings") [] false).2 = .error e →
      getTournamentStandingsHandler responder validApiKey id
        = ⟨true, [⟨"text", "Error fetching tournament standings: " ++ jsErrorString e⟩]⟩)
    ∧ ((limitlessRequest responder validApiKey
          ("tournaments/" ++ id ++ "/pairings") [] false).2 = .error e →
      getTournamentPairingsHandler responder validApiKey id
        = ⟨true, [⟨"text", "Error fetching tournament pairings: " ++ jsErrorString e⟩]⟩) := by
  refine ⟨?_, ?_, ?_, ?_⟩ <;> intro h <;>
    simp [getTournamentsHandler, getTournamentDetailsHandler,
      getTournamentStandingsHandler, getTournamentPairingsHandler, h]

/-- Witness for C7 with an upstream that always fails. -/
theorem tool_handlers_catch_failures_witness :
    getTournamentsHandler (fun _ => FetchResult.networkFailure "down") "k"
        .undef .undef .undef .undef .undef
      = ⟨true, [⟨"text", "Error fetching tournaments: "
          ++ jsErrorString (.networkError "down")⟩]⟩
    ∧ getTournamentDetailsHandler (fun _ => FetchResult.networkFailure "down") "k" "123"
      = ⟨true, [⟨"text", "Error fetching tournament details: "
          ++ jsErrorString (.networkError "down")⟩]⟩
    ∧ getTournamentStandingsHandler (fun _ => FetchResult.networkFailure "down") "k" "123"
      = ⟨true, [⟨"text", "Error fetching tournament standings: "
          ++ jsErrorString (.networkError "down")⟩]⟩
    ∧ getTournamentPairingsHandler (fun _ => FetchResult.networkFailure "down") "k" "123"
      = ⟨true, [⟨"text", "Error fetching tournament pairings: "
          ++ jsErrorString (.networkError "down")⟩]⟩ :=
  ⟨(tool_handlers_catch_failures (fun _ => FetchResult.networkFailure "down") "k"
      .undef .undef .undef .undef .undef ("123") (.networkError "down")).1 rfl,
   (tool_handlers_catch_failures (fun _ => FetchResult.networkFailure "down") "k"
      .undef .undef .undef .undef .undef ("123") (.networkError "down")).2.1 rfl,
   (tool_handlers_catch_failures (fun _ => FetchResult.networkFailure "down") "k"
      .undef .undef .undef .undef .undef ("123") (.networkError "down")).2.2.1 rfl,
   (tool_handlers_catch_failures (fun _ => FetchResult.networkFailure "down") "k"
      .undef .undef .undef .undef .undef ("123") (.networkError "down")).2.2.2 rfl⟩

/-- C8: invoking get_tournaments with game VGC and limit 10 builds
exactly the query parameters game and limit; when the upstream accepts
the first attempt, the invocation issues exactly one request, to the
path tournaments, whose query includes game=VGC and limit=10 and
mentions none of the names format, organizerId, page. -/
theorem get_tournaments_vgc_limit_request (responder : Responder)
    (validApiKey : String) (data : Json)
    (h : attempt responder (buildRequest validApiKey "tournaments"
        (getTournamentsQueryParams (.str "VGC") .undef .undef (.num 10) .undef)
        false) = .ok data) :
    getTournamentsQueryParams (.str "VGC") .undef .undef (.num 10) .undef
      = [("game", .str "VGC"), ("limit", .num 10)]
    ∧ (getTournamentsCall responder validApiKey
        (.str "VGC") .undef .undef (.num 10) .undef).1
      = [buildRequest validApiKey "tournaments"
          (getTournamentsQueryParams (.str "VGC") .undef .undef (.num 10) .undef)
          false]
    ∧ ∀ req ∈ (getTournamentsCall responder validApiKey
        (.str "VGC") .undef .undef (.num 10) .undef).1,
        req.path = "tournaments"
        ∧ ("game", "VGC") ∈ req.query
        ∧ ("limit", "10") ∈ req.query
        ∧ "format" ∉ req.query.map Prod.fst
        ∧ "organizerId" ∉ req.query.map Prod.fst
        ∧ "page" ∉ req.query.map Prod.fst := by
  refine ⟨by decide, ?_, ?_⟩
  · simp [getTournamentsCall, limitlessRequest, h]
  · intro req hreq
    simp [getTournamentsCall, limitlessRequest, h] at hreq
    subst hreq
    have hq : (buildRequest validApiKey "tournaments"
        (getTournamentsQueryParams (.str "VGC") .undef .undef (.num 10) .undef)
        false).query
      = [("game", "VGC"), ("limit", "10"), ("key", validApiKey)] := rfl
    have hp : (buildRequest validApiKey "tournaments"
        (getTournamentsQueryParams (.str "VGC") .undef .undef (.num 10) .undef)
        false).path = "tournaments" := rfl
    refine ⟨hp, ?_, ?_, ?_, ?_, ?_⟩ <;> rw [hq] <;> simp

/-- Witness for C8 with an upstream that accepts every request. -/
theorem get_tournaments_vgc_limit_request_witness :
    (getTournamentsCall
        (fun _ => FetchResult.success ⟨true, 200, "OK", .ok .null⟩) "k"
        (.str "VGC") .undef .undef (.num 10) .undef).1
      = [buildRequest "k" "tournaments"
          (getTournamentsQueryParams (.str "VGC") .undef .undef (.num 10) .undef)
          false] :=
  (get_tournaments_vgc_limit_request
    (fun _ => FetchResult.success ⟨true, 200, "OK", .ok .null⟩) "k" .null
    rfl).2.1

/-- C9: when the environment variable is unset or empty and no argv
entry starts with api-key=, startup is fatal with the diagnostic, and
the process never reaches the running state, so no tool invocation is
served without a configured credential. -/
theorem startup_fatal_without_credential (env : Option String)
    (argv : List String) (henv : envTruthy env = false)
    (hargv : ∀ a ∈ argv, jsStartsWith a "api-key=" = false) :
    startup env argv = .fatal noApiKeyDiagnostic
    ∧ ∀ k, startup env argv ≠ .running k := by
  have hfind : argv.find? (fun arg => jsStartsWith arg "api-key=") = none :=
    List.find?_eq_none.mpr (by intro x hx; simp [hargv x hx])
  have hkey : getApiKey env argv = none := by
    simp [getApiKey, henv, hfind]
  exact ⟨by simp [startup, hkey], by intro k; simp [startup, hkey]⟩

/-- Witness for C9: no environment variable, plain node argv. -/
theorem startup_fatal_without_credential_witness :
    startup none ["node", "build/index.js"] = .fatal noApiKeyDiagnostic :=
  (startup_fatal_without_credential none ["node", "build/index.js"] rfl
    (by intro a ha; fin_cases ha <;> decide)).1



/-- C10: each of the five get_tournaments parameters is omitted from
the outbound query parameter set and from the human-readable title
whenever its value is falsy, and the falsy values include the number
zero, the empty string, null and undefined. -/
theorem get_tournaments_omits_falsy_params
    (game format organizerId limit page : JSValue) :
    (truthy game = false →
      "game" ∉ (getTournamentsQueryParams game format organizerId limit page).map
        Prod.fst
      ∧ getTournamentsTitle game format organizerId limit page
        = getTournamentsTitle .undef format organizerId limit page)
    ∧ (truthy format = false →
      "format" ∉ (getTournamentsQueryParams game format organizerId limit page).map
        Prod.fst
      ∧ getTournamentsTitle game format organizerId limit page
        = getTournamentsTitle game .undef organizerId limit page)
    ∧ (truthy organizerId = false →
      "organizerId"
        ∉ (getTournamentsQueryParams game format organizerId limit page).map
          Prod.fst
      ∧ getTournamentsTitle game format organizerId limit page
        = getTournamentsTitle game format .undef limit page)
    ∧ (truthy limit = false →
      "limit" ∉ (getTournamentsQueryParams game format organizerId limit page).map
        Prod.fst
      ∧ getTournamentsTitle game format organizerId limit page
        = getTournamentsTitle game format organizerId .undef page)
    ∧ (truthy page = false →
      "page" ∉ (getTournamentsQueryParams game format organizerId limit page).map
        Prod.fst
      ∧ getTournamentsTitle game format organizerId limit page
        = getTournamentsTitle game format organizerId limit .undef)
    ∧ (truthy (.num 0) = false ∧ truthy (.str "") = false
       ∧ truthy .null = false ∧ truthy .undef = false) := by
  have hu : truthy JSValue.undef = false := rfl
  refine ⟨?_, ?_, ?_, ?_, ?_, by decide⟩ <;> intro h <;>
    refine ⟨fun hmem => ?_, by simp [getTournamentsTitle, h, hu]⟩ <;>
    rcases getTournamentsQueryParams_names hmem with
      ⟨h1, h2⟩ | ⟨h1, h2⟩ | ⟨h1, h2⟩ | ⟨h1, h2⟩ | ⟨h1, h2⟩ <;> simp_all

/-- Witness for C10 at falsy inputs: null game, empty format, null
organizer, zero limit and zero page all vanish from the query
parameters; with all five falsy the title keeps only its base text. -/
theorem get_tournaments_omits_falsy_params_witness :
    "game" ∉ (getTournamentsQueryParams .null (.str "") .null (.num 0)
      (.num 0)).map Prod.fst
    ∧ "format" ∉ (getTournamentsQueryParams .null (.str "") .null (.num 0)
      (.num 0)).map Prod.fst
    ∧ "organizerId" ∉ (getTournamentsQueryParams .null (.str "") .null (.num 0)
      (.num 0)).map Prod.fst
    ∧ "limit" ∉ (getTournamentsQueryParams .null (.str "") .null (.num 0)
      (.num 0)).map Prod.fst
    ∧ "page" ∉ (getTournamentsQueryParams .null (.str "") .null (.num 0)
      (.num 0)).map Prod.fst
    ∧ getTournamentsTitle .null (.str "") .null (.num 0) (.num 0)
      = getTournamentsTitle .undef (.str "") .null (.num 0) (.num 0) :=
  ⟨((get_tournaments_omits_falsy_params .null (.str "") .null (.num 0)
      (.num 0)).1 (by decide)).1,
   ((get_tournaments_omits_falsy_params .null (.str "") .null (.num 0)
      (.num 0)).2.1 (by decide)).1,
   ((get_tournaments_omits_falsy_params .null (.str "") .null (.num 0)
      (.num 0)).2.2.1 (by decide)).1,
   ((get_tournaments_omits_falsy_params .null (.str "") .null (.num 0)
      (.num 0)).2.2.2.1 (by decide)).1,
   ((get_tournaments_omits_falsy_params .null (.str "") .null (.num 0)
      (.num 0)).2.2.2.2.1 (by decide)).1,
   ((get_tournaments_omits_falsy_params .null (.str "") .null (.num 0)
      (.num 0)).1 (by decide)).2⟩
